import Mathlib

/-!
Verification of the command-line script execution and service-lifecycle
runtime of flocker (`flocker/common/script.py`): `flocker_standard_options`,
`FlockerScriptRunner` (`_parse_options` and `main`), `_chain_stop_result`
and `main_for_service`.

The Python code is embedded shallowly: each relevant operation of
`script.py` becomes a Lean function on explicit state.  External
collaborators (the Twisted option parser's flag dispatch and the event
loop's system-event triggers) are modelled at their documented boundary.
-/

/- ### The script runner (`FlockerScriptRunner.main`) -/

/-- The I/O operations executed during logging setup in
`FlockerScriptRunner.main` (lines 122-133 of `script.py`), in program
order.  Any of them may raise `OSError`/`IOError`. -/
inductive SetupStep where
  | makedirs       -- `self.log_directory.makedirs()`
  | openFile       -- `log_path.open("a")`
  | mkObserver     -- `FileLogObserver(log_file).emit` (before assignment)
  | attachObserver -- `addObserver(observer)` (after assignment)
  | startupMsg     -- `msg("Arguments: %s" % (self.sys_module.argv,))`
deriving DecidableEq

/-- Result of `self.options.parseOptions(arguments)` as observed by
`FlockerScriptRunner._parse_options`: success, a `usage.UsageError`
carrying a message, or a `SystemExit` raised from inside a flag handler
(for example `opt_version`), which is not caught by `_parse_options`. -/
inductive ParseOutcome where
  | ok
  | usageError (msg : String)
  | exitRaised (code : Nat)
deriving DecidableEq

/-- Environment of one `FlockerScriptRunner.main` invocation: the process
argument vector and pid, the log directory (a class attribute, overridable
by tests), whether the directory already exists, which setup I/O operation
(if any) would fail when executed, the behaviour of the option schema's
parser on the given arguments, the schema's usage text
(`unicode(self.options)`), and whether `self._react` raises. -/
structure ScriptEnv where
  argv : List String
  pid : Nat
  logDirectory : String
  logDirExists : Bool
  failAt : Option SetupStep
  parse : List String → ParseOutcome
  usageText : String
  reactRaises : Bool

/-- `os.path.basename`: the path component after the last slash (empty
for a path ending in a slash, the whole string when there is no slash). -/
def basename (p : String) : String :=
  String.mk (p.data.foldl (fun acc c => if c = '/' then [] else acc ++ [c]) [])

/-- The log file name `"%s-%d.log" % (os.path.basename(argv[0]), pid)`.
The program name `argv[0]` is assumed present (`headD ""` totalizes the
Python indexing `argv[0]`). -/
def logFileName (env : ScriptEnv) : String :=
  basename (env.argv.headD "") ++ "-" ++ toString env.pid ++ ".log"

/-- The log file path `self.log_directory.child(...)`: directory joined
with the file name. -/
def logFilePath (env : ScriptEnv) : String :=
  env.logDirectory ++ "/" ++ logFileName env

/-- Python `repr` of a string (single-quoted, quotes written as `\x27`). -/
def pyStr (s : String) : String := "\x27" ++ s ++ "\x27"

/-- Python `"%s" % (argv,)` formatting of the argument vector list. -/
def pyListRepr (xs : List String) : String :=
  "[" ++ String.intercalate ", " (xs.map pyStr) ++ "]"

/-- The startup record `"Arguments: %s" % (self.sys_module.argv,)`. -/
def startupRecord (env : ScriptEnv) : String :=
  "Arguments: " ++ pyListRepr env.argv

/-- Observable result of the `try`/`except (OSError, IOError)` logging
setup block of `FlockerScriptRunner.main`:
* `dirCreated` — `makedirs` ran;
* `fileOpened` — path and mode of the opened (hence created) log file;
* `observerSet` — the local variable `observer` is not `None`;
* `attached` — `addObserver(observer)` completed;
* `firstRecord` — the record written by the startup `msg` call. -/
structure LogSetup where
  dirCreated : Bool
  fileOpened : Option (String × String)
  observerSet : Bool
  attached : Bool
  firstRecord : Option String
deriving DecidableEq

/-- The logging setup block (`script.py` lines 121-133): run the five
steps in order; the step named by `failAt` raises when executed, the
exception is swallowed by `except (OSError, IOError): pass`, and whatever
was assigned before the failure remains assigned. -/
def loggingSetup (env : ScriptEnv) : LogSetup :=
  if env.logDirExists = false ∧ env.failAt = some SetupStep.makedirs then
    ⟨false, none, false, false, none⟩
  else if env.failAt = some SetupStep.openFile then
    ⟨!env.logDirExists, none, false, false, none⟩
  else if env.failAt = some SetupStep.mkObserver then
    ⟨!env.logDirExists, some (logFilePath env, "a"), false, false, none⟩
  else if env.failAt = some SetupStep.attachObserver then
    ⟨!env.logDirExists, some (logFilePath env, "a"), true, false, none⟩
  else if env.failAt = some SetupStep.startupMsg then
    ⟨!env.logDirExists, some (logFilePath env, "a"), true, true, none⟩
  else
    ⟨!env.logDirExists, some (logFilePath env, "a"), true, true,
      some (startupRecord env)⟩

/-- How `FlockerScriptRunner.main` terminates. -/
inductive ExitKind where
  | normalReturn            -- `main` returns
  | usageExit               -- `SystemExit(1)` raised by `_parse_options`
  | parseExitPropagated (code : Nat) -- `SystemExit` from inside `parseOptions`
  | reactException          -- an exception raised out of `self._react`
deriving DecidableEq

/-- Observable outcome of one `FlockerScriptRunner.main` invocation. -/
structure RunResult where
  setup : LogSetup
  stderrOut : List String
  exitKind : ExitKind
  exitCode : Option Nat
  scriptMainInvoked : Bool
  observerRemoved : Bool
  fileClosed : Bool

/-- `FlockerScriptRunner.main` (`script.py` lines 119-144): logging setup
first, then `_parse_options(self.sys_module.argv[1:])` (on `UsageError`:
write the usage text and the `ERROR:` line to stderr and raise
`SystemExit(1)`; a `SystemExit` raised inside `parseOptions` propagates
unchanged), then `self._react(self.script.main, ...)`; finally, only when
control reaches the end of `main` normally, `removeObserver(observer)` and
`log_file.close()` run, guarded by `observer is not None`.  There is no
`try`/`finally`: an exception on the parse or react path skips cleanup. -/
def runnerMain (env : ScriptEnv) : RunResult :=
  let s := loggingSetup env
  match env.parse env.argv.tail with
  | ParseOutcome.usageError m =>
      { setup := s
        stderrOut := [env.usageText, "ERROR: " ++ m ++ "\n"]
        exitKind := ExitKind.usageExit
        exitCode := some 1
        scriptMainInvoked := false
        observerRemoved := false
        fileClosed := false }
  | ParseOutcome.exitRaised c =>
      { setup := s
        stderrOut := []
        exitKind := ExitKind.parseExitPropagated c
        exitCode := some c
        scriptMainInvoked := false
        observerRemoved := false
        fileClosed := false }
  | ParseOutcome.ok =>
      if env.reactRaises then
        { setup := s
          stderrOut := []
          exitKind := ExitKind.reactException
          exitCode := none
          scriptMainInvoked := true
          observerRemoved := false
          fileClosed := false }
      else
        { setup := s
          stderrOut := []
          exitKind := ExitKind.normalReturn
          exitCode := none
          scriptMainInvoked := true
          observerRemoved := s.observerSet
          fileClosed := s.observerSet }

/- ### Helper lemmas about the runner -/

/-- The logging-setup outcome is unaffected by the parse and react
phases, which run after it. -/
theorem runnerMain_setup (env : ScriptEnv) :
    (runnerMain env).setup = loggingSetup env := by
  unfold runnerMain
  cases h : env.parse env.argv.tail
  · cases hr : env.reactRaises <;> rfl
  · rfl
  · rfl

/- ### Concrete environments for counterexamples and witnesses -/

/-- A run whose logging setup fully succeeds and whose parser rejects the
arguments with a usage error. -/
def cexEnvC1 : ScriptEnv where
  argv := ["prog", "--bogus"]
  pid := 7
  logDirectory := "/var/log/flocker"
  logDirExists := true
  failAt := none
  parse := fun _ => ParseOutcome.usageError "Unknown option"
  usageText := "Usage: prog [options]\n"
  reactRaises := false

/-- A second run of the same shape, kept separate per claim. -/
def cexEnvC2 : ScriptEnv where
  argv := ["prog", "--bogus"]
  pid := 9
  logDirectory := "/var/log/flocker"
  logDirExists := true
  failAt := none
  parse := fun _ => ParseOutcome.usageError "Unknown option"
  usageText := "Usage: prog [options]\n"
  reactRaises := false

/-- C1 counterexample: a run in which a LogSink was successfully attached
(`attached = true`) and which exits through the usage-error path, yet the
observer is not detached and the log file not closed — refuting the claim
that the release runs on every exit path. -/
theorem claimC1_counterexample :
    (runnerMain cexEnvC1).setup.attached = true
    ∧ (runnerMain cexEnvC1).exitKind = ExitKind.usageExit
    ∧ (runnerMain cexEnvC1).observerRemoved = false
    ∧ (runnerMain cexEnvC1).fileClosed = false :=
  ⟨rfl, rfl, rfl, rfl⟩

/-- C1 (amended): the detach/close release runs exactly when
`FlockerScriptRunner.main` returns normally (parsing succeeded and
`_react` returned) and the observer variable was set; on the usage-error,
parse-`SystemExit` and react-exception paths an attached LogSink stays
attached and its file stays open. -/
theorem claimC1_cleanup_iff_normal_return (env : ScriptEnv) :
    ((runnerMain env).observerRemoved = true ∧ (runnerMain env).fileClosed = true)
      ↔ ((runnerMain env).exitKind = ExitKind.normalReturn
          ∧ (runnerMain env).setup.observerSet = true) := by
  unfold runnerMain
  cases h : env.parse env.argv.tail
  · cases hr : env.reactRaises <;> simp
  · simp
  · simp

/-- C2 counterexample: a parse that raises a usage error does exit with
code 1, but the log file has already been created (opened) and the LogSink
attached, because logging setup runs before parsing — refuting the claim
that no log file is created and no LogSink attached on this path. -/
theorem claimC2_counterexample :
    cexEnvC2.parse cexEnvC2.argv.tail = ParseOutcome.usageError "Unknown option"
    ∧ (runnerMain cexEnvC2).exitCode = some 1
    ∧ (runnerMain cexEnvC2).setup.fileOpened
        = some ("/var/log/flocker/prog-9.log", "a")
    ∧ (runnerMain cexEnvC2).setup.attached = true :=
  ⟨rfl, rfl, by decide, rfl⟩

/-- C2 (amended): on every usage-error parse the runner exits with code 1
and the script's main is not invoked, but the logging session is opened
before parsing: the setup outcome is exactly the one `loggingSetup`
produces, independent of the parse result (so when setup succeeds, the
log file is created and the LogSink attached even on this path). -/
theorem claimC2_usage_error_after_logging (env : ScriptEnv) (m : String)
    (h : env.parse env.argv.tail = ParseOutcome.usageError m) :
    (runnerMain env).exitCode = some 1
    ∧ (runnerMain env).scriptMainInvoked = false
    ∧ (runnerMain env).setup = loggingSetup env := by
  unfold runnerMain
  simp [h]

/-- Witness for the amended C2 at a concrete environment. -/
theorem claimC2_usage_error_after_logging_witness :
    (runnerMain cexEnvC1).exitCode = some 1
    ∧ (runnerMain cexEnvC1).scriptMainInvoked = false
    ∧ (runnerMain cexEnvC1).setup = loggingSetup cexEnvC1 :=
  claimC2_usage_error_after_logging cexEnvC1 "Unknown option" rfl

/-- An environment for the C5 witness: parser raising a usage error. -/
def witEnvC5 : ScriptEnv where
  argv := ["bin/prog", "--bogus"]
  pid := 12
  logDirectory := "/var/log/flocker"
  logDirExists := true
  failAt := none
  parse := fun _ => ParseOutcome.usageError "option --bogus not recognized"
  usageText := "Usage: prog [options]\n"
  reactRaises := false

/-- C5: on a usage error, `FlockerScriptRunner` writes the schema's usage
text followed by the `ERROR: <message>` line (newline-terminated) to the
injected stderr, terminates with exit code 1, and the script's main is
never invoked. -/
theorem claimC5_usage_error_output (env : ScriptEnv) (m : String)
    (h : env.parse env.argv.tail = ParseOutcome.usageError m) :
    (runnerMain env).stderrOut = [env.usageText, "ERROR: " ++ m ++ "\n"]
    ∧ (runnerMain env).exitCode = some 1
    ∧ (runnerMain env).scriptMainInvoked = false := by
  unfold runnerMain
  simp [h]

/-- Witness for C5 at a concrete environment. -/
theorem claimC5_usage_error_output_witness :
    (runnerMain witEnvC5).stderrOut
      = ["Usage: prog [options]\n", "ERROR: " ++ "option --bogus not recognized" ++ "\n"]
    ∧ (runnerMain witEnvC5).exitCode = some 1
    ∧ (runnerMain witEnvC5).scriptMainInvoked = false :=
  claimC5_usage_error_output witEnvC5 "option --bogus not recognized" rfl

/-- An environment whose logging setup fails at the startup-record step,
after the observer was assigned and attached. -/
def cexEnvC8 : ScriptEnv where
  argv := ["prog", "run"]
  pid := 5
  logDirectory := "/var/log/flocker"
  logDirExists := true
  failAt := some SetupStep.startupMsg
  parse := fun _ => ParseOutcome.ok
  usageText := "Usage: prog [options]\n"
  reactRaises := false

/-- C8 counterexample: when the I/O failure strikes at the startup-record
step, the exception is swallowed and the run proceeds, but the `observer`
variable is already set and `addObserver` already ran — a LogSink IS
considered established (the end-of-run cleanup even detaches it), refuting
the claim that no LogSink is considered established after any setup
failure. -/
theorem claimC8_counterexample :
    cexEnvC8.failAt = some SetupStep.startupMsg
    ∧ (runnerMain cexEnvC8).setup.observerSet = true
    ∧ (runnerMain cexEnvC8).setup.attached = true
    ∧ (runnerMain cexEnvC8).scriptMainInvoked = true
    ∧ (runnerMain cexEnvC8).observerRemoved = true :=
  ⟨rfl, rfl, rfl, rfl, rfl⟩

/-- C8 (amended): every `OSError`/`IOError` raised during logging setup is
swallowed and the run proceeds through parsing and the script's main with
the same stderr output, exit code and main-invocation behaviour as a run
with logging fully enabled; no LogSink is established when the failure
strikes directory creation, file open or observer construction, but a
failure at the attach or startup-record step leaves the observer variable
set (a LogSink is considered established); in all failure cases the
startup record is never written. -/
theorem claimC8_setup_failure_swallowed (env : ScriptEnv) (f : SetupStep)
    (h : env.failAt = some f)
    (hmk : f = SetupStep.makedirs → env.logDirExists = false) :
    (runnerMain env).scriptMainInvoked
        = (runnerMain { env with failAt := none }).scriptMainInvoked
    ∧ (runnerMain env).stderrOut = (runnerMain { env with failAt := none }).stderrOut
    ∧ (runnerMain env).exitCode = (runnerMain { env with failAt := none }).exitCode
    ∧ ((runnerMain env).setup.observerSet = true
        ↔ (f = SetupStep.attachObserver ∨ f = SetupStep.startupMsg))
    ∧ (runnerMain env).setup.firstRecord = none := by
  cases f <;>
    cases hp : env.parse env.argv.tail <;>
    cases hr : env.reactRaises <;>
    simp_all [runnerMain, loggingSetup]

/-- Witness for the amended C8 at a concrete environment and step. -/
theorem claimC8_setup_failure_swallowed_witness :
    (runnerMain cexEnvC8).scriptMainInvoked
        = (runnerMain { cexEnvC8 with failAt := none }).scriptMainInvoked
    ∧ (runnerMain cexEnvC8).stderrOut
        = (runnerMain { cexEnvC8 with failAt := none }).stderrOut
    ∧ (runnerMain cexEnvC8).exitCode
        = (runnerMain { cexEnvC8 with failAt := none }).exitCode
    ∧ ((runnerMain cexEnvC8).setup.observerSet = true
        ↔ (SetupStep.startupMsg = SetupStep.attachObserver
            ∨ SetupStep.startupMsg = SetupStep.startupMsg))
    ∧ (runnerMain cexEnvC8).setup.firstRecord = none :=
  claimC8_setup_failure_swallowed cexEnvC8 SetupStep.startupMsg rfl
    (fun hc => by cases hc)

/-- An environment whose logging setup fully succeeds. -/
def witEnvC9 : ScriptEnv where
  argv := ["/usr/bin/prog", "run"]
  pid := 42
  logDirectory := "/var/log/flocker"
  logDirExists := true
  failAt := none
  parse := fun _ => ParseOutcome.ok
  usageText := "Usage: prog [options]\n"
  reactRaises := false

/-- C9: on a successful logging setup the log file is opened at
`<log-directory>/<program-basename>-<pid>.log` (base name taken from the
first element of the argument vector) in append mode, and the first record
is the startup message carrying the full argument vector, program name
included. -/
theorem claimC9_log_file_layout (env : ScriptEnv) (p : String) (rest : List String)
    (ha : env.argv = p :: rest) (h : env.failAt = none) :
    (runnerMain env).setup.fileOpened = some (logFilePath env, "a")
    ∧ logFilePath env = env.logDirectory ++ "/" ++ logFileName env
    ∧ logFileName env = basename p ++ "-" ++ toString env.pid ++ ".log"
    ∧ (runnerMain env).setup.firstRecord
        = some ("Arguments: " ++ pyListRepr (p :: rest)) := by
  rw [runnerMain_setup]
  refine ⟨?_, rfl, ?_, ?_⟩
  · simp [loggingSetup, h]
  · simp [logFileName, ha]
  · simp [loggingSetup, h, startupRecord, ha]

/-- Witness for C9 at a concrete environment: the computed path and first
record are spelled out. -/
theorem claimC9_log_file_layout_witness :
    ((runnerMain witEnvC9).setup.fileOpened = some (logFilePath witEnvC9, "a")
      ∧ logFilePath witEnvC9 = witEnvC9.logDirectory ++ "/" ++ logFileName witEnvC9
      ∧ logFileName witEnvC9
          = basename "/usr/bin/prog" ++ "-" ++ toString witEnvC9.pid ++ ".log"
      ∧ (runnerMain witEnvC9).setup.firstRecord
          = some ("Arguments: " ++ pyListRepr ("/usr/bin/prog" :: ["run"])))
    ∧ logFilePath witEnvC9 = "/var/log/flocker/prog-42.log" :=
  ⟨claimC9_log_file_layout witEnvC9 "/usr/bin/prog" ["run"] rfl rfl, by decide⟩

/- ### Standard option augmentation (`flocker_standard_options`) -/

/-- The flags installed by `flocker_standard_options`: `--version`,
`--verbose` and its alias `-v` (both bound to the same `opt_verbose`). -/
inductive StdFlag where
  | version
  | verbose
  | shortV
deriving DecidableEq

/-- State of one decorated options instance: the `verbosity` key of the
options mapping, what was written to the injected stdout
(`self._sys_module.stdout`), and a pending `SystemExit` code. -/
structure OptInstance where
  verbosity : Nat
  stdoutOut : List String
  exitCode : Option Nat
deriving DecidableEq

/-- A fresh instance state before any handler runs: `verbosity` 0 (as set
by the decorated `__init__`), nothing written, no exit pending. -/
def freshOpt : OptInstance where
  verbosity := 0
  stdoutOut := []
  exitCode := none

/-- The decorated `__init__` installed by `flocker_standard_options`
(lines 36-47 of `script.py`): set `self[\x27verbosity\x27] = 0`, then call
the captured `original_init`. -/
def wrapped_init (original_init : OptInstance → OptInstance)
    (s : OptInstance) : OptInstance :=
  original_init { s with verbosity := 0 }

/-- The handler the decorator binds to each standard flag:
`opt_version` writes `__version__ + b'\n'` to the injected stdout and
raises `SystemExit(0)`; `opt_verbose` (also bound as `opt_v`) increments
`self[\x27verbosity\x27]`. -/
def dispatchFlag (ver : String) (f : StdFlag) (s : OptInstance) : OptInstance :=
  match f with
  | StdFlag.version =>
      { s with stdoutOut := s.stdoutOut ++ [ver ++ "\n"], exitCode := some 0 }
  | StdFlag.verbose => { s with verbosity := s.verbosity + 1 }
  | StdFlag.shortV => { s with verbosity := s.verbosity + 1 }

/-- Modelled from the spec's boundary contract for the option parser
(`usage.Options.parseOptions` is external Twisted code): handlers are
dispatched in command-line order and an exit raised by a handler aborts
parsing immediately, skipping every later flag. -/
def processFlags (ver : String) : List StdFlag → OptInstance → OptInstance
  | [], s => s
  | f :: rest, s =>
      if s.exitCode.isSome then s
      else processFlags ver rest (dispatchFlag ver f s)

/-- Once an exit is pending, no further flag is processed. -/
theorem processFlags_exited (ver : String) (fs : List StdFlag)
    (s : OptInstance) (h : s.exitCode.isSome = true) :
    processFlags ver fs s = s := by
  cases fs with
  | nil => rfl
  | cons f rest => simp [processFlags, h]

/-- Flag processing splits over list append. -/
theorem processFlags_append (ver : String) (fs gs : List StdFlag)
    (s : OptInstance) :
    processFlags ver (fs ++ gs) s = processFlags ver gs (processFlags ver fs s) := by
  induction fs generalizing s with
  | nil => rfl
  | cons f rest ih =>
      by_cases h : s.exitCode.isSome = true
      · simp [processFlags, h, processFlags_exited ver _ _ h]
      · simp only [List.cons_append, processFlags, h]
        simp only [Bool.false_eq_true] at h
        simp [h, ih]

/-- A run of flag processing that ends with no exit pending wrote nothing
to stdout and left the exit state unchanged. -/
theorem processFlags_no_exit (ver : String) (fs : List StdFlag)
    (s : OptInstance) (h : (processFlags ver fs s).exitCode = none) :
    (processFlags ver fs s).stdoutOut = s.stdoutOut := by
  induction fs generalizing s with
  | nil => rfl
  | cons f rest ih =>
      cases hsc : s.exitCode with
      | some c =>
          have hx : s.exitCode.isSome = true := by simp [hsc]
          rw [processFlags_exited ver _ _ hx] at h ⊢
      | none =>
          have hx : s.exitCode.isSome = false := by simp [hsc]
          simp only [processFlags, hx, Bool.false_eq_true, if_false] at h ⊢
          cases f with
          | version =>
              rw [processFlags_exited ver rest (dispatchFlag ver StdFlag.version s)
                (by simp [dispatchFlag])] at h
              simp [dispatchFlag] at h
          | verbose => exact ih _ h
          | shortV => exact ih _ h

/-- Processing only verbose-style flags from a state with no exit pending
adds their count to `verbosity` and never exits. -/
theorem processFlags_verbose_count (ver : String) (fs : List StdFlag)
    (s : OptInstance) (hall : ∀ f ∈ fs, f = StdFlag.verbose ∨ f = StdFlag.shortV)
    (hs : s.exitCode = none) :
    (processFlags ver fs s).verbosity = s.verbosity + fs.length
    ∧ (processFlags ver fs s).exitCode = none := by
  induction fs generalizing s with
  | nil => exact ⟨by simp [processFlags], hs⟩
  | cons f rest ih =>
      have hf := hall f (List.mem_cons_self f rest)
      have hrest : ∀ g ∈ rest, g = StdFlag.verbose ∨ g = StdFlag.shortV :=
        fun g hg => hall g (List.mem_cons_of_mem f hg)
      have hx : s.exitCode.isSome = false := by simp [hs]
      rcases hf with hf | hf <;> subst hf <;>
        simp only [processFlags, hx, Bool.false_eq_true, if_false, dispatchFlag] <;>
        obtain ⟨h1, h2⟩ := ih { s with verbosity := s.verbosity + 1 } hrest hs <;>
        exact ⟨by rw [h1]; simp [List.length_cons]; omega, h2⟩

/-- C6: if processing the flags before `--version` has not exited, then
encountering `--version` writes exactly the version string followed by a
newline to the injected stdout, terminates with exit code 0, processes no
further flag (verbosity is unchanged by the suffix); and whenever
`parseOptions` terminates via such a `SystemExit(0)`, the runner never
invokes the script's main and the process exits with code 0. -/
theorem claimC6_version_flag (ver : String) (pre post : List StdFlag)
    (h : (processFlags ver pre freshOpt).exitCode = none) :
    (processFlags ver (pre ++ StdFlag.version :: post) freshOpt).exitCode = some 0
    ∧ (processFlags ver (pre ++ StdFlag.version :: post) freshOpt).stdoutOut
        = [ver ++ "\n"]
    ∧ (processFlags ver (pre ++ StdFlag.version :: post) freshOpt).verbosity
        = (processFlags ver pre freshOpt).verbosity
    ∧ (∀ env : ScriptEnv, env.parse env.argv.tail = ParseOutcome.exitRaised 0 →
        (runnerMain env).scriptMainInvoked = false
        ∧ (runnerMain env).exitCode = some 0) := by
  have hsplit := processFlags_append ver pre (StdFlag.version :: post) freshOpt
  have hx : (processFlags ver pre freshOpt).exitCode.isSome = false := by simp [h]
  have hstep :
      processFlags ver (StdFlag.version :: post) (processFlags ver pre freshOpt)
        = dispatchFlag ver StdFlag.version (processFlags ver pre freshOpt) := by
    simp only [processFlags, hx, Bool.false_eq_true, if_false]
    exact processFlags_exited ver post _ (by simp [dispatchFlag])
  rw [hsplit, hstep]
  refine ⟨by simp [dispatchFlag], ?_, by simp [dispatchFlag], ?_⟩
  · have hout := processFlags_no_exit ver pre freshOpt h
    simp only [dispatchFlag]
    rw [hout]
    rfl
  · intro env henv
    unfold runnerMain
    simp [henv]

/-- Witness for C6: `["-v", "--version", "-v"]` writes the version string
and exits 0 without processing the trailing flag. -/
theorem claimC6_version_flag_witness :
    (processFlags "0.1" ([StdFlag.shortV] ++ StdFlag.version :: [StdFlag.shortV])
        freshOpt).exitCode = some 0
    ∧ (processFlags "0.1" ([StdFlag.shortV] ++ StdFlag.version :: [StdFlag.shortV])
        freshOpt).stdoutOut = ["0.1" ++ "\n"]
    ∧ (processFlags "0.1" ([StdFlag.shortV] ++ StdFlag.version :: [StdFlag.shortV])
        freshOpt).verbosity
        = (processFlags "0.1" [StdFlag.shortV] freshOpt).verbosity
    ∧ (∀ env : ScriptEnv, env.parse env.argv.tail = ParseOutcome.exitRaised 0 →
        (runnerMain env).scriptMainInvoked = false
        ∧ (runnerMain env).exitCode = some 0) :=
  claimC6_version_flag "0.1" [StdFlag.shortV] [StdFlag.shortV] (by decide)

/-- C7: the decorated `__init__` sets `verbosity` to 0 and only then runs
the captured original constructor; hence a freshly constructed instance
whose original constructor leaves `verbosity` alone has `verbosity = 0`;
and parsing any argument list of N verbose flags (`--verbose` and `-v` in
any mix) from a fresh instance yields `verbosity = N`. -/
theorem claimC7_verbosity (orig : OptInstance → OptInstance) (s : OptInstance) :
    wrapped_init orig s = orig { s with verbosity := 0 }
    ∧ ({ s with verbosity := 0 } : OptInstance).verbosity = 0
    ∧ ((∀ x, (orig x).verbosity = x.verbosity) → (wrapped_init orig s).verbosity = 0)
    ∧ (∀ (ver : String) (fs : List StdFlag),
        (∀ f ∈ fs, f = StdFlag.verbose ∨ f = StdFlag.shortV) →
        (processFlags ver fs freshOpt).verbosity = fs.length) := by
  refine ⟨rfl, rfl, ?_, ?_⟩
  · intro hpres
    rw [wrapped_init, hpres]
  · intro ver fs hall
    have := processFlags_verbose_count ver fs freshOpt hall rfl
    simpa [freshOpt] using this.1

/-- Witness for C7: the identity constructor preserves `verbosity`, so a
fresh decorated instance has `verbosity` 0, and `["-v", "--verbose", "-v"]`
parses to `verbosity` 3. -/
theorem claimC7_verbosity_witness :
    (wrapped_init id freshOpt).verbosity = 0
    ∧ (processFlags "0.1" [StdFlag.shortV, StdFlag.verbose, StdFlag.shortV]
        freshOpt).verbosity = 3 :=
  ⟨(claimC7_verbosity id freshOpt).2.2.1 (fun _ => rfl),
    (claimC7_verbosity id freshOpt).2.2.2 "0.1"
      [StdFlag.shortV, StdFlag.verbose, StdFlag.shortV] (by decide)⟩

/- ### Service lifecycle binder (`main_for_service`, `_chain_stop_result`) -/

/-- Outcome of a resolved future: success or failure. -/
inductive Outcome where
  | success
  | failure (msg : String)
deriving DecidableEq

/-- A service bound by `main_for_service`: whether `startService()` raises
(and with what message), and the eventual outcome of the future produced
by `maybeDeferred(service.stopService)`. -/
structure Service where
  startRaises : Option String
  stopOutcome : Outcome
deriving DecidableEq

/-- State of the event loop and the one binding under consideration:
invocation counters for `startService`/`stopService`, whether the
before-shutdown trigger is registered, whether it has already fired, the
resolution of the `stop` Deferred created by `main_for_service`, and how
many times that Deferred has been fired. -/
structure LoopState where
  startCalls : Nat
  stopCalls : Nat
  hookRegistered : Bool
  hookFired : Bool
  stopResolved : Option Outcome
  fireCount : Nat
deriving DecidableEq

/-- The loop before any binding. -/
def initLoop : LoopState where
  startCalls := 0
  stopCalls := 0
  hookRegistered := false
  hookFired := false
  stopResolved := none
  fireCount := 0

/-- Firing the `stop` Deferred with an outcome (the effect of
`chainDeferred` when the source Deferred resolves). -/
def fireDeferred (o : Outcome) (st : LoopState) : LoopState :=
  { st with stopResolved := some o, fireCount := st.fireCount + 1 }

/-- `_chain_stop_result` (`script.py` lines 147-156): call
`maybeDeferred(service.stopService)` and chain its outcome — success or
failure alike — into the `stop` Deferred. -/
def _chain_stop_result (svc : Service) (st : LoopState) : LoopState :=
  fireDeferred svc.stopOutcome { st with stopCalls := st.stopCalls + 1 }

/-- `main_for_service` (`script.py` lines 159-185): call
`service.startService()` synchronously — if it raises, the exception
propagates and nothing further happens — then create the unresolved
`stop` Deferred, register `_chain_stop_result` as a before-shutdown
trigger and return the Deferred. -/
def main_for_service (svc : Service) (st : LoopState) :
    LoopState × Except String Unit :=
  let st1 := { st with startCalls := st.startCalls + 1 }
  match svc.startRaises with
  | some e => (st1, Except.error e)
  | none => ({ st1 with hookRegistered := true }, Except.ok ())

/-- Modelled from the spec's boundary contract for the event loop
(`reactor.addSystemEventTrigger` is external Twisted code): triggering
shutdown invokes each registered before-shutdown hook exactly once ("run
once" hook); a trigger with no registered or an already-fired hook does
nothing. -/
def triggerShutdown (svc : Service) (st : LoopState) : LoopState :=
  if st.hookRegistered = true ∧ st.hookFired = false then
    _chain_stop_result svc { st with hookFired := true }
  else st

/-- C3: binding a service whose `startService` does not raise and then
triggering loop shutdown resolves the returned Deferred with exactly the
outcome of the service's stop future, firing it exactly once and calling
`stopService` exactly once; a second shutdown trigger changes nothing. -/
theorem claimC3_stop_outcome_forwarded (svc : Service)
    (h : svc.startRaises = none) :
    (triggerShutdown svc (main_for_service svc initLoop).1).stopResolved
        = some svc.stopOutcome
    ∧ (triggerShutdown svc (main_for_service svc initLoop).1).fireCount = 1
    ∧ (triggerShutdown svc (main_for_service svc initLoop).1).stopCalls = 1
    ∧ triggerShutdown svc (triggerShutdown svc (main_for_service svc initLoop).1)
        = triggerShutdown svc (main_for_service svc initLoop).1 := by
  simp [main_for_service, triggerShutdown, _chain_stop_result, fireDeferred,
    initLoop, h]

/-- Witness for C3, both for a successful and a failing stop future. -/
theorem claimC3_stop_outcome_forwarded_witness :
    (triggerShutdown ⟨none, Outcome.success⟩
        (main_for_service ⟨none, Outcome.success⟩ initLoop).1).stopResolved
      = some Outcome.success
    ∧ (triggerShutdown ⟨none, Outcome.failure "stop failed"⟩
        (main_for_service ⟨none, Outcome.failure "stop failed"⟩ initLoop).1).stopResolved
      = some (Outcome.failure "stop failed") :=
  ⟨(claimC3_stop_outcome_forwarded ⟨none, Outcome.success⟩ rfl).1,
    (claimC3_stop_outcome_forwarded ⟨none, Outcome.failure "stop failed"⟩ rfl).1⟩

/-- C4: when `startService` raises, `main_for_service` propagates the
exception to its caller, registers no shutdown hook, and leaves a state
in which shutdown triggers are no-ops, so `stopService` is never invoked;
moreover for every service the `startService` call completes (exactly one
start invocation) before anything else, with no stop invocation at
binding time. -/
theorem claimC4_start_failure_no_hook (svc : Service) (e : String)
    (h : svc.startRaises = some e) :
    (main_for_service svc initLoop).2 = Except.error e
    ∧ (main_for_service svc initLoop).1.hookRegistered = false
    ∧ (main_for_service svc initLoop).1.stopCalls = 0
    ∧ triggerShutdown svc (main_for_service svc initLoop).1
        = (main_for_service svc initLoop).1
    ∧ (∀ s : Service, (main_for_service s initLoop).1.startCalls = 1
        ∧ (main_for_service s initLoop).1.stopCalls = 0) := by
  refine ⟨?_, ?_, ?_, ?_, ?_⟩
  · simp [main_for_service, h]
  · simp [main_for_service, h, initLoop]
  · simp [main_for_service, h, initLoop]
  · simp [main_for_service, triggerShutdown, h, initLoop]
  · intro s
    cases hs : s.startRaises <;> simp [main_for_service, hs, initLoop]

/-- Witness for C4 at a concrete failing service. -/
theorem claimC4_start_failure_no_hook_witness :
    (main_for_service ⟨some "boom", Outcome.success⟩ initLoop).2
        = Except.error "boom"
    ∧ (main_for_service ⟨some "boom", Outcome.success⟩ initLoop).1.hookRegistered
        = false
    ∧ (main_for_service ⟨some "boom", Outcome.success⟩ initLoop).1.stopCalls = 0
    ∧ triggerShutdown ⟨some "boom", Outcome.success⟩
          (main_for_service ⟨some "boom", Outcome.success⟩ initLoop).1
        = (main_for_service ⟨some "boom", Outcome.success⟩ initLoop).1
    ∧ (∀ s : Service, (main_for_service s initLoop).1.startCalls = 1
        ∧ (main_for_service s initLoop).1.stopCalls = 0) :=
  claimC4_start_failure_no_hook ⟨some "boom", Outcome.success⟩ "boom" rfl

/- ### In-place class mutation by `flocker_standard_options` (C10) -/

/-- A method implementation as stored on a class object: a user-supplied
method (named), the decorator's replacement `__init__` closing over the
captured original, or the decorator's `opt_version` / `opt_verbose`
bodies. -/
inductive MethodImpl where
  | user (name : String)
  | wrappedInit (original : MethodImpl)
  | stdVersion
  | stdVerbose
deriving DecidableEq

/-- The attributes of a class object touched by the decorator. -/
structure ClsRecord where
  initImpl : MethodImpl
  opt_version : Option MethodImpl
  opt_verbose : Option MethodImpl
  opt_v : Option MethodImpl
deriving DecidableEq

/-- Class identity: references to classes are ids into a heap of class
records, so that "the very same class object, mutated in place" is
expressible. -/
abbrev ClassId := Nat

/-- The heap of class objects. -/
abbrev ClassStore := ClassId → ClsRecord

/-- `flocker_standard_options` (`script.py` lines 28-61) as a heap
operation: capture `original_init := cls.__init__`, assign
`cls.__init__`, `cls.opt_version`, `cls.opt_verbose` and
`cls.opt_v = opt_verbose` on the same class object, and `return cls`. -/
def flocker_standard_options (c : ClassId) (σ : ClassStore) :
    ClassId × ClassStore :=
  let r := σ c
  let r2 : ClsRecord :=
    { initImpl := MethodImpl.wrappedInit r.initImpl
      opt_version := some MethodImpl.stdVersion
      opt_verbose := some MethodImpl.stdVerbose
      opt_v := some MethodImpl.stdVerbose }
  (c, fun x => if x = c then r2 else σ x)

/-- C10: the decorator returns the very same class object it was given,
with its `__init__` replaced by the wrapper closing over the captured
original and `opt_version`/`opt_verbose`/`opt_v` added (`opt_v` being the
same implementation as `opt_verbose`); every other class object is
untouched, so any pre-existing reference to the class id observes the
augmented record, and no new class object is created. -/
theorem claimC10_in_place_mutation (c : ClassId) (σ : ClassStore) :
    (flocker_standard_options c σ).1 = c
    ∧ ((flocker_standard_options c σ).2 c).initImpl
        = MethodImpl.wrappedInit (σ c).initImpl
    ∧ ((flocker_standard_options c σ).2 c).opt_version = some MethodImpl.stdVersion
    ∧ ((flocker_standard_options c σ).2 c).opt_verbose = some MethodImpl.stdVerbose
    ∧ ((flocker_standard_options c σ).2 c).opt_v
        = ((flocker_standard_options c σ).2 c).opt_verbose
    ∧ (∀ d : ClassId, d ≠ c → (flocker_standard_options c σ).2 d = σ d) := by
  refine ⟨rfl, ?_, ?_, ?_, ?_, ?_⟩ <;>
    simp [flocker_standard_options]
  intro d hd
  simp [hd]

/-- A one-class heap for the C10 witness. -/
def storeC10 : ClassStore :=
  fun _ => ⟨MethodImpl.user "Options.__init__", none, none, none⟩

/-- Witness for C10: the decorator applied at class id 0 returns id 0,
installs the wrapper around the captured original, and leaves class id 1
untouched. -/
theorem claimC10_in_place_mutation_witness :
    (flocker_standard_options 0 storeC10).1 = 0
    ∧ ((flocker_standard_options 0 storeC10).2 0).initImpl
        = MethodImpl.wrappedInit (storeC10 0).initImpl
    ∧ (flocker_standard_options 0 storeC10).2 1 = storeC10 1 :=
  ⟨(claimC10_in_place_mutation 0 storeC10).1,
    (claimC10_in_place_mutation 0 storeC10).2.1,
    (claimC10_in_place_mutation 0 storeC10).2.2.2.2.2 1 (by decide)⟩
